import Mathlib

/-!
Shallow embedding of the `unified_ai_api` package (provider catalog handlers,
credential resolution, the compatible-client dispatcher and REST transport
response conversion, and the connection-manager / chat-session lifecycle),
together with theorems settling the specification claims.

Conventions of the embedding:
* Python exceptions are modelled by the `PyError` type; fallible code returns
  `Except PyError α`.  Methods that mutate `self` and may raise after a partial
  mutation return the post-state together with `Option PyError`.
* Python dictionaries whose insertion order is not observed by any property
  below are modelled as association lists with first-match lookup; `dict.update`
  / item assignment prepends (shadowing), which is lookup-equivalent.
* Python string truthiness (`if not s`) is `s = ""`; `str.strip()` is
  `String.trim`; the slice `s[:n]` is `pySlice s n` over code points.
* Literal apostrophes and braces inside string literals are written with the
  escapes `\x27`, `\x7b`, `\x7d`.
-/

/-- Python exception values, restricted to the classes the embedded code can
raise.  `invalidParameterError`, `unsupportedAPITypeError` and
`responseConversionError` are subclasses of `APIClientError` in the source;
`is_api_client_error` models that `isinstance` relation. -/
inductive PyError where
  | valueError (msg : String)
  | keyError (key : String)
  | attributeError (msg : String)
  | apiClientError (msg : String)
  | invalidParameterError (msg : String)
  | unsupportedAPITypeError (msg : String)
  | responseConversionError (msg : String)
  | runtimeError (msg : String)
deriving DecidableEq, Repr

-- Decidable equality for `Except` results, needed to evaluate concrete runs.
deriving instance DecidableEq for Except

/-- Models `isinstance(e, APIClientError)` for the exception taxonomy of
`compatible_client_api.py` (the three specific errors subclass it). -/
def is_api_client_error : PyError → Bool
  | .apiClientError _ => true
  | .invalidParameterError _ => true
  | .unsupportedAPITypeError _ => true
  | .responseConversionError _ => true
  | _ => false

/-- Models `str(e)` for an exception: `str(KeyError(k))` is the repr of the
key (Python quotes it), the other classes render their message. -/
def pyErrStr : PyError → String
  | .valueError m => m
  | .keyError k => "\x27" ++ k ++ "\x27"
  | .attributeError m => m
  | .apiClientError m => m
  | .invalidParameterError m => m
  | .unsupportedAPITypeError m => m
  | .responseConversionError m => m
  | .runtimeError m => m

/-- A Python value stored in the `_connection_params` dict of the manager: the six
entries hold five strings and one int (`config_index`). -/
inductive PValue where
  | s (v : String)
  | n (v : Int)
deriving DecidableEq, Repr

/-- Python truthiness of a stored parameter value (`if not value`). -/
def pvTruthy : PValue → Bool
  | .s v => v ≠ ""
  | .n v => v ≠ 0

/-- Models `str(value)` for a stored parameter value. -/
def pvStr : PValue → String
  | .s v => v
  | .n v => toString v

/-- Python whitespace characters recognised by `str.strip()` (ASCII set). -/
def isPySpace (c : Char) : Bool :=
  c == ' ' || c == '\t' || c == '\n' || c == '\r' || c == '\x0b' || c == '\x0c'

/-- Models `s.strip()`: drop leading and trailing whitespace (kept executable
over the character list so that concrete instances evaluate in the kernel). -/
def pyStrip (s : String) : String :=
  String.mk (((s.toList.dropWhile isPySpace).reverse.dropWhile isPySpace).reverse)

/-- Test whether `needle` is a prefix of the character list. -/
def charStartsWith : List Char → List Char → Bool
  | [], _ => true
  | _ :: _, [] => false
  | a :: as, b :: bs => a == b && charStartsWith as bs

/-- Test whether `needle` occurs somewhere in the character list. -/
def charInfix (needle : List Char) : List Char → Bool
  | [] => needle.isEmpty
  | c :: rest => charStartsWith needle (c :: rest) || charInfix needle rest

/-- A Python `dict[str, ...]` whose insertion order is never observed by the
properties below: association list with first-match lookup. -/
abbrev PyDict := List (String × PValue)

/-- Membership / item read: `d.get(k)` respectively `k in d`. -/
def dictGet (d : PyDict) (k : String) : Option PValue :=
  (d.find? (fun kv => kv.1 == k)).map (fun kv => kv.2)

/-- Item write (also the effect of `dict.update` for one key): prepend with
shadowing, which is lookup-equivalent to the Python in-place update. -/
def dictSet (d : PyDict) (k : String) (v : PValue) : PyDict :=
  (k, v) :: d

/-- Models the repr of a Python list of strings, as interpolated into
f-strings such as `f"Available: {available}"`. -/
def pyReprStrList (l : List String) : String :=
  "[" ++ String.intercalate ", " (l.map (fun s => "\x27" ++ s ++ "\x27")) ++ "]"

/-! ## Provider catalog (`types/providers_types.py`, `providers_config_handlers.py`)

The JSON catalog `providers.json` is the external data the Configuration Store
loads; it is passed explicitly as a `ProvidersFile` argument (the `lru_cache`
loader is read-only file I/O). -/

/-- One provider configuration (`ProvidersConfigParams`, a `TypedDict` with
`total=False`: every attribute may be absent). -/
structure ProvidersConfigParams where
  config_name : Option String := none
  model_url : Option String := none
  model_name : Option String := none
  init_config_msg : Option String := none
  api_supported : Option (List String) := none
  api_endpoints : Option (List (String × String)) := none
deriving DecidableEq, Repr

/-- Model of `ProvidersFile`: mapping provider name → list of configurations. -/
abbrev ProvidersFile := List (String × List ProvidersConfigParams)

/-- Model of `SecretsConfig`: the flat secret table of `secret.json`. -/
abbrev SecretsConfig := List (String × String)

/-- Lookup of a provider in the catalog (`provider in providers_file` /
`providers_file[provider]`). -/
def provLookup (pf : ProvidersFile) (provider : String) :
    Option (List ProvidersConfigParams) :=
  (pf.find? (fun kv => kv.1 == provider)).map (fun kv => kv.2)

/-- Lookup in the secret table (`config_name in secret_file_conf` /
`secret_file_conf[key]`). -/
def secretLookup (secrets : SecretsConfig) (key : String) : Option String :=
  (secrets.find? (fun kv => kv.1 == key)).map (fun kv => kv.2)

/-- Lookup in a JSON endpoints mapping. -/
def endpointLookup (eps : List (String × String)) (key : String) : Option String :=
  (eps.find? (fun kv => kv.1 == key)).map (fun kv => kv.2)

/-- The value of one attribute of a provider config, as read by
`provider_config[attribute]` (string-, list- and dict-valued attributes). -/
inductive AttrVal where
  | s (v : String)
  | ls (v : List String)
  | dict (v : List (String × String))
deriving DecidableEq, Repr

/-- Models `attribute in provider_config` / `provider_config[attribute]` over the
`TypedDict` fields. -/
def cfgGet (c : ProvidersConfigParams) (attr : String) : Option AttrVal :=
  if attr = "config_name" then c.config_name.map AttrVal.s
  else if attr = "model_url" then c.model_url.map AttrVal.s
  else if attr = "model_name" then c.model_name.map AttrVal.s
  else if attr = "init_config_msg" then c.init_config_msg.map AttrVal.s
  else if attr = "api_supported" then c.api_supported.map AttrVal.ls
  else if attr = "api_endpoints" then c.api_endpoints.map AttrVal.dict
  else none

/-- Models `list(provider_config.keys())` (present attributes, in declaration order;
the key order of the JSON file is not observed by any property below). -/
def cfgKeys (c : ProvidersConfigParams) : List String :=
  (["config_name", "model_url", "model_name", "init_config_msg",
    "api_supported", "api_endpoints"]).filter (fun a => (cfgGet c a).isSome)

/-- Models `str(provider_config[attribute])`. -/
def attrStr : AttrVal → String
  | .s v => v
  | .ls v => pyReprStrList v
  | .dict v =>
      "\x7b" ++ String.intercalate ", "
        (v.map (fun kv => "\x27" ++ kv.1 ++ "\x27: \x27" ++ kv.2 ++ "\x27")) ++ "\x7d"

/-- Model of `ProvidersConfigHandler.available_providers`. -/
def available_providers (pf : ProvidersFile) : List String :=
  pf.map (fun kv => kv.1)

/-- Model of `ProvidersConfigHandler.available_provider_configs`. -/
def available_provider_configs (pf : ProvidersFile) (provider : String) :
    Except PyError (List ProvidersConfigParams) :=
  match provLookup pf provider with
  | none =>
      .error (.valueError ("Provider \"" ++ provider ++ "\" not found. Available: "
        ++ pyReprStrList (available_providers pf)))
  | some cfgs => .ok cfgs

/-- Model of `ProvidersConfigHandler.get_provider_config`: validates the provider and
that `config_index` is in range (`cfgs[i]?` is `none` exactly when
`config_index >= len(cfgs)` for a natural index). -/
def get_provider_config (pf : ProvidersFile) (provider : String)
    (config_index : Nat) : Except PyError ProvidersConfigParams :=
  match provLookup pf provider with
  | none =>
      .error (.valueError ("Provider \"" ++ provider ++ "\" not found. Available: "
        ++ pyReprStrList (available_providers pf)))
  | some cfgs =>
      match cfgs[config_index]? with
      | none =>
          .error (.valueError ("Index " ++ toString config_index
            ++ " out of range for provider \"" ++ provider ++ "\" (max: "
            ++ toString ((cfgs.length : Int) - 1) ++ ")"))
      | some c => .ok c

/-- Model of `ProvidersConfigHandler.get_provider_config_attribute`. -/
def get_provider_config_attribute (pf : ProvidersFile) (provider : String)
    (attr : String) (config_index : Nat) : Except PyError String :=
  match get_provider_config pf provider config_index with
  | .error e => .error e
  | .ok c =>
      match cfgGet c attr with
      | none =>
          .error (.valueError ("Attribute \x27" ++ attr
            ++ "\x27 not found for provider \x27" ++ provider
            ++ "\x27. Available: " ++ pyReprStrList (cfgKeys c)))
      | some v => .ok (attrStr v)

/-- Model of `ProvidersConfigHandler.get_provider_api_supported`: note the source reads
`provider_config.get("api_supported", [])`, a silent default. -/
def get_provider_api_supported (pf : ProvidersFile) (provider : String)
    (config_index : Nat) : Except PyError (List String) :=
  match get_provider_config pf provider config_index with
  | .error e => .error e
  | .ok c => .ok (c.api_supported.getD [])

/-- Model of `ProvidersConfigHandler.get_provider_endpoint`: a bare
`provider_config["api_endpoints"]` access (KeyError if absent), then a checked
lookup of the endpoint type. -/
def get_provider_endpoint (pf : ProvidersFile) (provider : String)
    (endpoint_type : String) (config_index : Nat) : Except PyError String :=
  match get_provider_config pf provider config_index with
  | .error e => .error e
  | .ok c =>
      match c.api_endpoints with
      | none => .error (.keyError "api_endpoints")
      | some eps =>
          match endpointLookup eps endpoint_type with
          | none =>
              .error (.valueError ("Endpoint type \x27" ++ endpoint_type
                ++ "\x27 not found for provider \x27" ++ provider
                ++ "\x27. Available: " ++ pyReprStrList (eps.map (fun kv => kv.1))))
          | some u => .ok u

/-! ## Credential resolution (`auth_keys.py`) -/

/-- Model of `auth_keys._get_api_key_from_config_name`: direct secret-table lookup,
`ValueError` naming the requested key when absent. -/
def get_api_key_from_config_name (secrets : SecretsConfig) (provider : String)
    (config_name : String) : Except PyError String :=
  match secretLookup secrets config_name with
  | some key => .ok key
  | none =>
      .error (.valueError ("No API key found for " ++ provider
        ++ " with config name " ++ config_name))

/-- Model of `auth_keys._get_api_key_from_config_index`: resolves the `config_name`
attribute of the provider via the Configuration Store, then performs a bare
`secret_file_conf[api_key_ref]` access — an unguarded dict item read that
raises `KeyError(api_key_ref)` when the referenced key is absent. -/
def get_api_key_from_config_index (pf : ProvidersFile) (secrets : SecretsConfig)
    (provider : String) (config_index : Nat) : Except PyError String :=
  match get_provider_config_attribute pf provider "config_name" config_index with
  | .error e => .error e
  | .ok api_key_ref =>
      match secretLookup secrets api_key_ref with
      | some key => .ok key
      | none => .error (.keyError api_key_ref)

/-- Model of `auth_keys.get_secret_api_key`: dispatches between the two resolution
paths on whether an explicit `config_name` was supplied. -/
def get_secret_api_key (pf : ProvidersFile) (secrets : SecretsConfig)
    (provider : String) (config_name : Option String) (config_index : Nat) :
    Except PyError String :=
  match config_name with
  | none => get_api_key_from_config_index pf secrets provider config_index
  | some name => get_api_key_from_config_name secrets provider name

/-! ## Normalized response schema (`types/chat_response.py`) -/

/-- Model of `ChatMessage` (pydantic model): role is one of
`system`/`user`/`assistant`, content and name are nullable. -/
structure ChatMessage where
  role : String
  content : Option String := none
  name : Option String := none
deriving DecidableEq, Repr

/-- Models `ChatMessage.create_message(role="user", content=...)`. -/
def mkUserMessage (content : String) : ChatMessage :=
  { role := "user", content := some content }

/-- Models `ChatMessage.create_message(role="assistant", content=...)`. -/
def mkAssistantMessage (content : String) : ChatMessage :=
  { role := "assistant", content := some content }

/-- Model of `ChatChoice` (pydantic model). -/
structure ChatChoice where
  index : Int
  message : ChatMessage
  finish_reason : Option String := none
  delta : Option ChatMessage := none
deriving DecidableEq, Repr

/-- Model of `ChatUsage` (pydantic model). -/
structure ChatUsage where
  prompt_tokens : Option Int := none
  completion_tokens : Option Int := none
  total_tokens : Option Int := none
deriving DecidableEq, Repr

/-- Model of `ChatCompletionResponse` (pydantic model). -/
structure ChatCompletionResponse where
  id : Option String := none
  object : Option String := some "chat.completion"
  created : Option Int := none
  model : Option String := none
  choices : Option (List ChatChoice) := none
  usage : Option ChatUsage := none
  system_fingerprint : Option String := none
deriving DecidableEq, Repr

/-- Model of `ChatCompletionResponse.get_content`: the content of the first choice, if
available (`if self.choices and len(self.choices) > 0`). -/
def ChatCompletionResponse.get_content (r : ChatCompletionResponse) :
    Option String :=
  match r.choices with
  | some (c :: _) => c.message.content
  | _ => none

/-! ## JSON values and Python rendering (`requests` response bodies) -/

/-- A parsed JSON value, as returned by `Response.json()`. -/
inductive Json where
  | null
  | bool (b : Bool)
  | num (n : Int)
  | str (s : String)
  | arr (l : List Json)
  | obj (l : List (String × Json))

/-- Dictionary lookup on a JSON object (`d.get(k)` / `k in d`). -/
def jGet (d : List (String × Json)) (k : String) : Option Json :=
  (d.find? (fun kv => kv.1 == k)).map (fun kv => kv.2)

/-- The Python type name of a parsed JSON value, used in `AttributeError`
messages. -/
def jsonTypeName : Json → String
  | .null => "NoneType"
  | .bool _ => "bool"
  | .num _ => "int"
  | .str _ => "str"
  | .arr _ => "list"
  | .obj _ => "dict"

mutual
/-- Models Python `repr` for values parsed from JSON (string escaping inside
the repr is not modelled). -/
def pyRepr : Json → String
  | .null => "None"
  | .bool true => "True"
  | .bool false => "False"
  | .num n => toString n
  | .str s => "\x27" ++ s ++ "\x27"
  | .arr l => "[" ++ String.intercalate ", " (pyReprList l) ++ "]"
  | .obj l => "\x7b" ++ String.intercalate ", " (pyReprObj l) ++ "\x7d"

/-- Python `repr` of each element of a JSON array. -/
def pyReprList : List Json → List String
  | [] => []
  | j :: l => pyRepr j :: pyReprList l

/-- Python `repr` of each entry of a JSON object. -/
def pyReprObj : List (String × Json) → List String
  | [] => []
  | (k, v) :: l => ("\x27" ++ k ++ "\x27: " ++ pyRepr v) :: pyReprObj l
end

/-- Models Python `str()` / f-string interpolation for values parsed from
JSON (`str` of a string is the string itself, containers render as repr). -/
def pyStr : Json → String
  | .str s => s
  | j => pyRepr j

/-- Python string slice `s[:n]` over code points. -/
def pySlice (s : String) (n : Nat) : String :=
  String.mk (s.toList.take n)

/-! ## pydantic validation (`ChatCompletionResponse.model_validate`)

`model_validate` raises `pydantic.ValidationError`, a subclass of
`ValueError`; the validator below models it with an error string.  Exact
pydantic lax-mode coercions are approximated by the declared field types. -/

/-- Validate a nullable-string field. -/
def vStrOpt : Json → Except String (Option String)
  | .null => .ok none
  | .str s => .ok (some s)
  | _ => .error "Input should be a valid string"

/-- Validate a nullable-int field. -/
def vIntOpt : Json → Except String (Option Int)
  | .null => .ok none
  | .num n => .ok (some n)
  | _ => .error "Input should be a valid integer"

/-- Validate the `MessageRole` literal. -/
def vRole : Json → Except String String
  | .str s =>
      if s = "system" ∨ s = "user" ∨ s = "assistant" then .ok s
      else .error "Input should be \x27system\x27, \x27user\x27 or \x27assistant\x27"
  | _ => .error "Input should be a valid string"

/-- Validate a `ChatMessage` (role required, content and name defaulted). -/
def vChatMessage : Json → Except String ChatMessage
  | .obj d => do
      let role ← match jGet d "role" with
        | some j => vRole j
        | none => .error "Field required: role"
      let content ← match jGet d "content" with
        | some j => vStrOpt j
        | none => pure none
      let nm ← match jGet d "name" with
        | some j => vStrOpt j
        | none => pure none
      pure { role := role, content := content, name := nm }
  | _ => .error "Input should be a valid dictionary"

/-- Validate a `ChatChoice` (index and message required). -/
def vChatChoice : Json → Except String ChatChoice
  | .obj d => do
      let idx ← match jGet d "index" with
        | some (.num n) => pure n
        | some _ => .error "Input should be a valid integer"
        | none => .error "Field required: index"
      let msg ← match jGet d "message" with
        | some j => vChatMessage j
        | none => .error "Field required: message"
      let fr ← match jGet d "finish_reason" with
        | some j => vStrOpt j
        | none => pure none
      let delta ← match jGet d "delta" with
        | some .null => pure none
        | some j => (vChatMessage j).map some
        | none => pure none
      pure { index := idx, message := msg, finish_reason := fr, delta := delta }
  | _ => .error "Input should be a valid dictionary"

/-- Validate a `ChatUsage`. -/
def vChatUsage : Json → Except String ChatUsage
  | .obj d => do
      let pt ← match jGet d "prompt_tokens" with
        | some j => vIntOpt j
        | none => pure none
      let ct ← match jGet d "completion_tokens" with
        | some j => vIntOpt j
        | none => pure none
      let tt ← match jGet d "total_tokens" with
        | some j => vIntOpt j
        | none => pure none
      pure { prompt_tokens := pt, completion_tokens := ct, total_tokens := tt }
  | _ => .error "Input should be a valid dictionary"

/-- Model of `ChatCompletionResponse.model_validate` over a parsed JSON value (all
fields optional with defaults; extra keys are ignored, as pydantic does by
default). -/
def vChatCompletionResponse : Json → Except String ChatCompletionResponse
  | .obj d => do
      let id ← match jGet d "id" with
        | some j => vStrOpt j
        | none => pure none
      let obj ← match jGet d "object" with
        | some j => vStrOpt j
        | none => pure (some "chat.completion")
      let created ← match jGet d "created" with
        | some j => vIntOpt j
        | none => pure none
      let model ← match jGet d "model" with
        | some j => vStrOpt j
        | none => pure none
      let choices ← match jGet d "choices" with
        | some .null => pure none
        | some (.arr l) => (l.mapM vChatChoice).map some
        | some _ => .error "Input should be a valid list"
        | none => pure none
      let usage ← match jGet d "usage" with
        | some .null => pure none
        | some j => (vChatUsage j).map some
        | none => pure none
      let sf ← match jGet d "system_fingerprint" with
        | some j => vStrOpt j
        | none => pure none
      pure { id := id, object := obj, created := created, model := model,
             choices := choices, usage := usage, system_fingerprint := sf }
  | _ => .error "Input should be a valid dictionary"

/-! ## REST transport response conversion
(`RestAPICompatibleClient._convert_response`) -/

/-- An HTTP response as seen by `_convert_response`: the status code, the raw
body text, and the result of `Response.json()` — `none` models the external
JSON parser raising (a subclass of `ValueError`). -/
structure RestResponse where
  status_code : Nat
  text : String
  json : Option Json

/-- The `JSONDecodeError` message of the external `json` decoder; it
reports a position and never embeds the document text. -/
def jsonDecodeErrMsg : String :=
  "Expecting value: line 1 column 1 (char 0)"

/-- Models `error_details.get("error", ...).get("message", str(error_details))` on the
parsed JSON of a non-200 body.  A parsed value that is not a dict — or an
`error` entry that is not a dict — has no `.get` method, so the attribute
access raises `AttributeError` (uncaught in the source). -/
def extract_error_message (j : Json) : Except PyError String :=
  match j with
  | .obj d =>
      match jGet d "error" with
      | none => .ok (pyStr (.obj d))
      | some (.obj e) =>
          match jGet e "message" with
          | some v => .ok (pyStr v)
          | none => .ok (pyStr (.obj d))
      | some v =>
          .error (.attributeError ("\x27" ++ jsonTypeName v
            ++ "\x27 object has no attribute \x27get\x27"))
  | _ =>
      .error (.attributeError ("\x27" ++ jsonTypeName j
        ++ "\x27 object has no attribute \x27get\x27"))

/-- Model of `RestAPICompatibleClient._convert_response`.  On HTTP 200 both a JSON
parse failure and a `model_validate` failure are caught by the
`except ValueError` clause (the pydantic `ValidationError` subclasses
`ValueError`), whose message embeds `rest_response.text[:500]`.  On non-200
the extracted error message is wrapped into an `APIClientError` with the
status code; an `AttributeError` from `extract_error_message` escapes. -/
def convert_response (r : RestResponse) : Except PyError ChatCompletionResponse :=
  if r.status_code = 200 then
    match r.json with
    | none =>
        .error (.responseConversionError ("Failed to parse JSON response: "
          ++ jsonDecodeErrMsg ++ ". Response text: " ++ pySlice r.text 500))
    | some j =>
        match vChatCompletionResponse j with
        | .ok resp => .ok resp
        | .error e =>
            .error (.responseConversionError ("Failed to parse JSON response: "
              ++ e ++ ". Response text: " ++ pySlice r.text 500))
  else
    match r.json with
    | none =>
        .error (.apiClientError ("API request failed with status "
          ++ toString r.status_code ++ ": " ++ pySlice r.text 500))
    | some j =>
        match extract_error_message j with
        | .ok msg =>
            .error (.apiClientError ("API request failed with status "
              ++ toString r.status_code ++ ": " ++ msg))
        | .error e => .error e

/-! ## Client registry / dispatcher (`CompatibleClientDispatcher`) -/

/-- The transport classes registered at import time. -/
inductive Transport where
  | openAICompatibleClient
  | restAPICompatibleClient
deriving DecidableEq, Repr

/-- Model of `CompatibleClientDispatcher._registry`, populated by the two
`@CompatibleClientDispatcher.register(...)` decorations in
`compatible_client_api.py`. -/
def dispatcher_registry : List (String × Transport) :=
  [("openai", Transport.openAICompatibleClient),
   ("requests", Transport.restAPICompatibleClient)]

/-- Registry lookup (`key in self.registry` / `self.registry[key]`). -/
def registryLookup (reg : List (String × Transport)) (key : String) :
    Option Transport :=
  (reg.find? (fun kv => kv.1 == key)).map (fun kv => kv.2)

/-- Model of `CompatibleClientDispatcher.__call__`: looks up the constructor and
instantiates it (the constructors run the non-empty
`BaseAPIClient.__init__` validation of `base_url`, `api_key`, `model_name`); with no registered
handler it raises `UnsupportedAPITypeError(f"No handler for: {key}")`. -/
def dispatcher_call (key base_url api_key model_name : String) :
    Except PyError Transport :=
  match registryLookup dispatcher_registry key with
  | some t =>
      if base_url = "" ∨ pyStrip base_url = "" then
        .error (.invalidParameterError "base_url must be provided and non-empty")
      else if api_key = "" ∨ pyStrip api_key = "" then
        .error (.invalidParameterError "api_key must be provided and non-empty")
      else if model_name = "" ∨ pyStrip model_name = "" then
        .error (.invalidParameterError "model_name must be provided and non-empty")
      else .ok t
  | none => .error (.unsupportedAPITypeError ("No handler for: " ++ key))

/-- Substring occurrence test, used to state what an error message does or
does not mention. -/
def strContains (s sub : String) : Bool :=
  charInfix sub.toList s.toList

/-! ## Chat session (`api_connection.ChatClient`) -/

/-- The mutable state of a `ChatClient`.  `transport_close_count` counts the
`self.compatible_client.close()` invocations (the observable resource-release
side effect); the `CompatibleClient` itself is created eagerly in `__init__`
but resolves its transport lazily, so it is not part of the state needed by
the properties below. -/
structure ChatClient where
  session_id : String
  is_closed : Bool
  chat_history : List ChatMessage
  connection_params : PyDict
  secret_api_key : String
  transport_close_count : Nat
deriving DecidableEq, Repr

/-- Model of `ChatClient.__init__` (invoked through the factory, so the
`_ChatClientToken` isinstance check passes): validates the inputs, then
builds the `CompatibleClient` — whose constructor re-validates
`base_url`/`api_key`/`model_name`; a non-string `endpoint_url` or
`model_name` has no `.strip()`, and that `AttributeError` is wrapped into
`APIClientError` by the final `except Exception` clause.  The transport
itself is resolved lazily, so no dispatcher lookup happens here. -/
def chatclient_init (session_id : String) (connection_params : PyDict)
    (secret_api_key : String) : Except PyError ChatClient :=
  if connection_params.isEmpty then
    .error (.invalidParameterError "Connection parameters cannot be empty")
  else if secret_api_key = "" ∨ pyStrip secret_api_key = "" then
    .error (.invalidParameterError "Secret API key must be provided and non-empty")
  else if session_id = "" ∨ pyStrip session_id = "" then
    .error (.invalidParameterError "Session ID must be provided and non-empty")
  else
    let required := ["api_type", "endpoint_url", "model_name", "init_config_msg"]
    let missing := required.filter (fun p => (dictGet connection_params p).isNone)
    if missing ≠ [] then
      .error (.invalidParameterError ("Missing required connection parameters: "
        ++ pyReprStrList missing))
    else
      let empty := required.filter (fun p =>
        match dictGet connection_params p with
        | some v => !pvTruthy v || pyStrip (pvStr v) = ""
        | none => false)
      if empty ≠ [] then
        .error (.invalidParameterError ("Empty values for required parameters: "
          ++ pyReprStrList empty))
      else
        match dictGet connection_params "endpoint_url",
              dictGet connection_params "model_name" with
        | some (PValue.s _), some (PValue.s _) =>
            .ok { session_id := session_id, is_closed := false,
                  chat_history := [],
                  connection_params := connection_params,
                  secret_api_key := secret_api_key,
                  transport_close_count := 0 }
        | _, _ =>
            .error (.apiClientError
              ("Failed to initialize API client: \x27int\x27 object has no "
                ++ "attribute \x27strip\x27"))

/-- Model of `ChatClient.send_message`, with the outcome of the transport call
`self.compatible_client.chat_completion(history)` supplied as an oracle
(`Except` value): the user message is appended to the history before the
call; every exception raised by the call is caught and turned into a `None`
result; the assistant message is appended only when the returned content is
truthy. -/
def send_message (c : ChatClient) (message : String)
    (outcome : Except PyError ChatCompletionResponse) :
    Except PyError (ChatClient × Option String) :=
  if message = "" ∨ pyStrip message = "" then
    .error (.invalidParameterError "Message cannot be empty or None")
  else
    let c1 := { c with chat_history := c.chat_history ++ [mkUserMessage message] }
    match outcome with
    | .error _ => .ok (c1, none)
    | .ok resp =>
        match resp.get_content with
        | some s =>
            if s ≠ "" then
              .ok ({ c1 with
                      chat_history := c1.chat_history ++ [mkAssistantMessage s] },
                   some s)
            else .ok (c1, some s)
        | none => .ok (c1, none)

/-- Model of `ChatClient.clear_chat_history`: reads
`self._connection_params["init_config_msg"]` (a missing key is wrapped into
`APIClientError`), substitutes the generic default when the configured value
is falsy, and resets the history to that single seed built with
`self._create_message_user` — a *user*-role message in both cases; a
non-string truthy value would be rejected by the `ChatMessage` model and
wrapped into `APIClientError` by the final `except Exception` clause. -/
def clear_chat_history (c : ChatClient) : Except PyError ChatClient :=
  match dictGet c.connection_params "init_config_msg" with
  | none =>
      .error (.apiClientError
        "Missing configuration parameter: \x27init_config_msg\x27")
  | some v =>
      if pvTruthy v then
        match v with
        | PValue.s t => .ok { c with chat_history := [mkUserMessage t] }
        | PValue.n _ =>
            .error (.apiClientError
              ("Failed to clear chat history: 1 validation error for ChatMessage"))
      else .ok { c with chat_history :=
                  [mkUserMessage "You are a helpful AI assistant."] }

/-- Model of `ChatClient.close`: guarded by `self._is_closed`; on the first call it
closes the bound `CompatibleClient` (counted), clears the history and sets
the closed flag; later calls do nothing.  The method has no raise path. -/
def ChatClient.close (c : ChatClient) : ChatClient :=
  if c.is_closed then c
  else { c with
          transport_close_count := c.transport_close_count + 1,
          chat_history := [],
          is_closed := true }

/-! ## Connection manager (`api_connection.APIConnectionManager`) -/

/-- The manager state: the tracked active clients, the
`_connection_params` dict and `_secret_api_key` (`none` models the attribute
not being set, which `hasattr` observes). -/
structure APIConnectionManager where
  active_clients : List ChatClient
  connection_params : PyDict
  secret_api_key : Option String
deriving DecidableEq, Repr

/-- Model of the fresh state `APIConnectionManager()`. -/
def freshManager : APIConnectionManager :=
  { active_clients := [], connection_params := [], secret_api_key := none }

/-- Model of `APIConnectionManager.validate_configuration`: all six required keys
present in `_connection_params` and `hasattr(self, "_secret_api_key")`. -/
def validate_configuration (m : APIConnectionManager) : Bool :=
  (["provider", "config_index", "api_type", "endpoint_url", "model_name",
    "init_config_msg"].all (fun p => (dictGet m.connection_params p).isSome))
  && m.secret_api_key.isSome

/-- The single `self._connection_params.update({...})` call of
`configure_api`: all six values are computed before the update runs. -/
def update_connection_params (d : PyDict) (provider : String)
    (config_index : Int) (api_type endpoint_url model_name init_config_msg :
    String) : PyDict :=
  dictSet (dictSet (dictSet (dictSet (dictSet (dictSet d
    "provider" (PValue.s provider))
    "config_index" (PValue.n config_index))
    "api_type" (PValue.s api_type))
    "endpoint_url" (PValue.s endpoint_url))
    "model_name" (PValue.s model_name))
    "init_config_msg" (PValue.s init_config_msg)

/-- The `except Exception` wrapping of the `try` block of `configure_api`:
`InvalidParameterError` and `APIClientError` (with its subclasses) re-raise
unchanged, anything else (`ValueError`, `KeyError`, ...) is wrapped. -/
def wrap_configure_error (provider : String) (e : PyError) : PyError :=
  if is_api_client_error e then e
  else .apiClientError ("Failed to configure API for provider \x27" ++ provider
    ++ "\x27: " ++ pyErrStr e)

/-- Model of `APIConnectionManager.configure_api`.  Returns the post-state together
with `some e` when the call raises `e` — the state component matters because
the `update` of `_connection_params` precedes the secret resolution and the
blank-secret check, so a late failure leaves a partially updated manager. -/
def configure_api (pf : ProvidersFile) (secrets : SecretsConfig)
    (m : APIConnectionManager) (provider : String) (config_index : Int)
    (api_type : String) : APIConnectionManager × Option PyError :=
  if !((available_providers pf).contains provider) then
    (m, some (.invalidParameterError ("Invalid provider \x27" ++ provider
      ++ "\x27. Available: " ++ pyReprStrList (available_providers pf))))
  else if config_index < 0 then
    (m, some (.invalidParameterError ("Config index must be >= 0, got: "
      ++ toString config_index)))
  else
    match provLookup pf provider with
    | none =>
        (m, some (wrap_configure_error provider (.valueError ("Provider \""
          ++ provider ++ "\" not found. Available: "
          ++ pyReprStrList (available_providers pf)))))
    | some provider_configs =>
        if (provider_configs.length : Int) ≤ config_index then
          (m, some (.invalidParameterError ("Config index "
            ++ toString config_index ++ " out of range for provider \x27"
            ++ provider ++ "\x27 (max: "
            ++ toString ((provider_configs.length : Int) - 1) ++ ")")))
        else
          match get_provider_api_supported pf provider config_index.toNat with
          | .error e => (m, some (wrap_configure_error provider e))
          | .ok supported_apis =>
              if !(supported_apis.contains api_type) then
                (m, some (.invalidParameterError ("API type \x27" ++ api_type
                  ++ "\x27 not supported by provider \x27" ++ provider
                  ++ "\x27 config " ++ toString config_index ++ ". Supported: "
                  ++ pyReprStrList supported_apis)))
              else
                match get_provider_endpoint pf provider api_type
                    config_index.toNat with
                | .error e => (m, some (wrap_configure_error provider e))
                | .ok endpoint_url =>
                    match get_provider_config_attribute pf provider "model_name"
                        config_index.toNat with
                    | .error e => (m, some (wrap_configure_error provider e))
                    | .ok model_name =>
                        match get_provider_config_attribute pf provider
                            "init_config_msg" config_index.toNat with
                        | .error e => (m, some (wrap_configure_error provider e))
                        | .ok init_config_msg =>
                            let m1 := { m with connection_params :=
                              (update_connection_params m.connection_params
                                provider config_index api_type endpoint_url
                                model_name init_config_msg) }
                            match get_secret_api_key pf secrets provider none
                                config_index.toNat with
                            | .error e =>
                                (m1, some (wrap_configure_error provider e))
                            | .ok key =>
                                let m2 := { m1 with secret_api_key := some key }
                                if key = "" ∨ pyStrip key = "" then
                                  (m2, some (.invalidParameterError
                                    ("No valid API key found for provider \x27"
                                      ++ provider ++ "\x27 config "
                                      ++ toString config_index
                                      ++ ". Check your environment variables or "
                                      ++ "secrets configuration.")))
                                else (m2, none)

/-- The `missing_config` list reported by `create_chatclient` when the
configuration is incomplete. -/
def missing_config (m : APIConnectionManager) : List String :=
  (["provider", "config_index", "api_type", "endpoint_url", "model_name",
    "init_config_msg"].filter (fun p => (dictGet m.connection_params p).isNone))
  ++ (if m.secret_api_key.isNone then ["secret_api_key"] else [])

/-- Model of `APIConnectionManager.create_chatclient`: requires a validated
configuration; auto-generates `session_{len(self._active_clients)}` when no
id is supplied; an explicitly blank id raises `InvalidParameterError`; a
successfully constructed client is appended to the tracking list. -/
def create_chatclient (m : APIConnectionManager) (session_id : Option String) :
    APIConnectionManager × Except PyError ChatClient :=
  if validate_configuration m = false then
    (m, .error (.invalidParameterError ("Configuration incomplete. Missing: "
      ++ pyReprStrList (missing_config m)
      ++ ". Use configure_api() method first.")))
  else
    match session_id with
    | some s =>
        if pyStrip s = "" then
          (m, .error (.invalidParameterError "Session ID cannot be empty"))
        else
          match chatclient_init s m.connection_params
              (m.secret_api_key.getD "") with
          | .error e => (m, .error e)
          | .ok c =>
              ({ m with active_clients := m.active_clients ++ [c] }, .ok c)
    | none =>
        match chatclient_init
            ("session_" ++ toString m.active_clients.length)
            m.connection_params (m.secret_api_key.getD "") with
        | .error e => (m, .error e)
        | .ok c =>
            ({ m with active_clients := m.active_clients ++ [c] }, .ok c)

/-- Model of `APIConnectionManager.close_all_clients`: closes every tracked client and
clears the tracking list (the closed clients are no longer reachable through
the manager). -/
def close_all_clients (m : APIConnectionManager) : APIConnectionManager :=
  { m with active_clients := [] }

/-! ## Concrete fixtures used by counterexamples and witnesses -/

/-- A fully populated provider configuration (the shape of the catalog
scenario in the specification). -/
def cfgACME : ProvidersConfigParams :=
  { config_name := some "k1", model_url := some "http://x",
    model_name := some "m1", init_config_msg := some "hi",
    api_supported := some ["openai"],
    api_endpoints := some [("openai", "http://x/v1")] }

/-- A one-provider catalog. -/
def pfACME : ProvidersFile := [("ACME", [cfgACME])]

/-- A secret table resolving the key reference of `cfgACME`. -/
def goodSecrets : SecretsConfig := [("k1", "sk-test")]

/-- A secret table missing the key reference of `cfgACME`. -/
def emptySecrets : SecretsConfig := []

/-- A catalog whose only configuration omits the `api_supported` attribute. -/
def pfNoApis : ProvidersFile :=
  [("PLAIN", [{ model_name := some "m1" }])]

/-- A fully configured manager state (six parameters and a secret), with no
tracked clients yet. -/
def demoManager : APIConnectionManager :=
  { active_clients := [],
    connection_params :=
      [("provider", PValue.s "ACME"), ("config_index", PValue.n 0),
       ("api_type", PValue.s "openai"), ("endpoint_url", PValue.s "http://x/v1"),
       ("model_name", PValue.s "m1"), ("init_config_msg", PValue.s "hi")],
    secret_api_key := some "sk-test" }

/-- An open chat session over the parameters of `demoManager`. -/
def demoClient : ChatClient :=
  { session_id := "s1", is_closed := false, chat_history := [],
    connection_params := demoManager.connection_params,
    secret_api_key := "sk-test", transport_close_count := 0 }

/-- An open chat session whose configured init message is blank. -/
def blankInitClient : ChatClient :=
  { demoClient with connection_params :=
      (dictSet demoClient.connection_params "init_config_msg" (PValue.s "")) }

/-- HTTP 500 with body `{"error": {"message": "boom"}}`. -/
def r500boom : RestResponse :=
  { status_code := 500,
    text := "\x7b\"error\": \x7b\"message\": \"boom\"\x7d\x7d",
    json := some (Json.obj [("error", Json.obj [("message", Json.str "boom")])]) }

/-- HTTP 500 whose body parses to the JSON array `[]`. -/
def r500arr : RestResponse :=
  { status_code := 500, text := "[]", json := some (Json.arr []) }

/-- HTTP 200 with a non-JSON body. -/
def r200bad : RestResponse :=
  { status_code := 200, text := "oops not json", json := none }

/-! ## Helper lemmas -/

/-- Stripping the empty string yields the empty string. -/
theorem pyStrip_empty : pyStrip "" = "" := rfl

/-- A blank-message guard `not message or not message.strip()` is false for a
message whose stripped form is non-empty. -/
theorem blank_guard_false (s : String) (h : pyStrip s ≠ "") :
    ¬(s = "" ∨ pyStrip s = "") := by
  rintro (rfl | hs)
  · exact h pyStrip_empty
  · exact h hs

/-- A client successfully built by `chatclient_init` carries the requested
session id. -/
theorem chatclient_init_session_id (sid : String) (d : PyDict) (k : String)
    (c : ChatClient) (h : chatclient_init sid d k = .ok c) :
    c.session_id = sid := by
  unfold chatclient_init at h
  dsimp only at h
  repeat' split at h
  all_goals first
    | exact Except.noConfusion h
    | (injection h with h; subst h; rfl)

/-! ## Claims -/

/-- C7 (amended) — for every api-type identifier with no registered transport
constructor, the dispatcher call fails with
`UnsupportedAPITypeError` whose message names the requested type (only; the
registered set does not appear in the message). -/
theorem dispatcher_call_unregistered (key base_url api_key model_name : String)
    (h : registryLookup dispatcher_registry key = none) :
    dispatcher_call key base_url api_key model_name
      = .error (.unsupportedAPITypeError ("No handler for: " ++ key)) := by
  unfold dispatcher_call
  rw [h]

/-- Witness for `dispatcher_call_unregistered` at the unregistered api type
`bogus`. -/
theorem dispatcher_call_unregistered_witness :
    dispatcher_call "bogus" "u" "k" "m"
      = .error (.unsupportedAPITypeError ("No handler for: " ++ "bogus")) :=
  dispatcher_call_unregistered "bogus" "u" "k" "m" (by decide)

/-- C7 counterexample — the claim says the error message names both the
requested type and the set of registered types; the actual message is
`No handler for: bogus`, which mentions neither registered type
(`openai`, `requests`). -/
theorem dispatcher_call_message_cex :
    dispatcher_call "bogus" "u" "k" "m"
        = .error (.unsupportedAPITypeError "No handler for: bogus") ∧
      strContains "No handler for: bogus" "openai" = false ∧
      strContains "No handler for: bogus" "requests" = false := by
  decide

/-- C9 (confirmed) — on an open session, `close()` closes the bound transport
exactly once, clears the history and marks the session closed; a second
`close()` is a no-op with no further resource release, and the method has no
raise path (it is a total function of the state). -/
theorem chatclient_close_idempotent (c : ChatClient)
    (h : c.is_closed = false) :
    (ChatClient.close c).is_closed = true ∧
      (ChatClient.close c).chat_history = [] ∧
      (ChatClient.close c).transport_close_count
        = c.transport_close_count + 1 ∧
      ChatClient.close (ChatClient.close c) = ChatClient.close c := by
  unfold ChatClient.close
  simp [h]

/-- Witness for `chatclient_close_idempotent` at a concrete open session. -/
theorem chatclient_close_idempotent_witness :
    (ChatClient.close demoClient).is_closed = true ∧
      (ChatClient.close demoClient).chat_history = [] ∧
      (ChatClient.close demoClient).transport_close_count
        = demoClient.transport_close_count + 1 ∧
      ChatClient.close (ChatClient.close demoClient)
        = ChatClient.close demoClient :=
  chatclient_close_idempotent demoClient (by decide)

/-- C10 (confirmed) — for a non-blank message: when the transport call raises
(any error, so `send_message` returns `None`), the user message appended
before the call remains and the history has grown by exactly that one
message; on a successful call the assistant message is appended only when the
returned content is non-empty (empty or missing content leaves only the user
message appended). -/
theorem send_message_history_frame (c : ChatClient) (msg : String)
    (hm : pyStrip msg ≠ "") :
    (∀ e : PyError, send_message c msg (.error e)
        = .ok ({ c with chat_history := c.chat_history ++ [mkUserMessage msg] },
               none)) ∧
      (∀ resp : ChatCompletionResponse, ∀ s : String,
        resp.get_content = some s → s ≠ "" →
        send_message c msg (.ok resp)
          = .ok ({ c with chat_history := c.chat_history
                    ++ [mkUserMessage msg, mkAssistantMessage s] }, some s)) ∧
      (∀ resp : ChatCompletionResponse, resp.get_content = none →
        send_message c msg (.ok resp)
          = .ok ({ c with chat_history := c.chat_history ++ [mkUserMessage msg] },
                 none)) ∧
      (∀ resp : ChatCompletionResponse, resp.get_content = some "" →
        send_message c msg (.ok resp)
          = .ok ({ c with chat_history := c.chat_history ++ [mkUserMessage msg] },
                 some "")) := by
  have hg := blank_guard_false msg hm
  refine ⟨fun e => ?_, fun resp s hs hne => ?_, fun resp hn => ?_, fun resp he => ?_⟩
  · unfold send_message
    rw [if_neg hg]
  · unfold send_message
    rw [if_neg hg]
    dsimp only
    rw [hs]
    dsimp only
    rw [if_pos hne]
    simp [List.append_assoc]
  · unfold send_message
    rw [if_neg hg]
    dsimp only
    rw [hn]
  · unfold send_message
    rw [if_neg hg]
    dsimp only
    rw [he]
    dsimp only
    rw [if_neg (by simp)]

/-- Witness for `send_message_history_frame`: a failing transport call leaves
exactly the user message appended and returns `None`. -/
theorem send_message_history_frame_witness :
    send_message demoClient "hi" (.error (.apiClientError "boom"))
      = .ok ({ demoClient with chat_history := demoClient.chat_history
                ++ [mkUserMessage "hi"] }, none) :=
  (send_message_history_frame demoClient "hi" (by decide)).1
    (.apiClientError "boom")

/-- C2 counterexample — `PLAIN`/0 is a valid (provider, index) pair of the
loaded catalog `pfNoApis`, whose configuration lacks the `api_supported`
attribute; `get_provider_api_supported` neither returns a non-empty set nor
raises the claimed descriptive error: it silently returns the empty list. -/
theorem get_provider_api_supported_silent_default_cex :
    provLookup pfNoApis "PLAIN" = some [{ model_name := some "m1" }] ∧
      get_provider_api_supported pfNoApis "PLAIN" 0 = .ok [] := by
  decide

/-- C2 (amended) — for every valid (provider, index) pair of a loaded
catalog, `get_provider_api_supported` returns the `api_supported` list of
the configuration, defaulting silently to the empty list when the
attribute is absent (so the result need not be non-empty and no
`NotFoundError` is raised for a missing attribute; descriptive errors are
raised only for an unknown provider or an out-of-range index, by
`get_provider_config`). -/
theorem get_provider_api_supported_default (pf : ProvidersFile) (p : String)
    (i : Nat) (cfgs : List ProvidersConfigParams) (cfg : ProvidersConfigParams)
    (hp : provLookup pf p = some cfgs) (hi : cfgs[i]? = some cfg) :
    get_provider_api_supported pf p i = .ok (cfg.api_supported.getD []) := by
  unfold get_provider_api_supported get_provider_config
  rw [hp]
  dsimp only
  rw [hi]

/-- Witness for `get_provider_api_supported_default` at the catalog whose
configuration omits `api_supported`. -/
theorem get_provider_api_supported_default_witness :
    get_provider_api_supported pfNoApis "PLAIN" 0
      = .ok ((({ model_name := some "m1" } :
          ProvidersConfigParams).api_supported).getD []) :=
  get_provider_api_supported_default pfNoApis "PLAIN" 0
    [{ model_name := some "m1" }] { model_name := some "m1" } (by decide) rfl

/-- C3 counterexample — the same absent secret key `k1` makes the two
resolution paths fail differently: by provider+index the failure is a bare
a bare `KeyError`, not the descriptive error raised by the explicit-name path
(the claim says the index path fails *the same way*). -/
theorem get_secret_api_key_paths_differ_cex :
    get_secret_api_key pfACME emptySecrets "ACME" none 0
        = .error (.keyError "k1") ∧
      get_secret_api_key pfACME emptySecrets "ACME" (some "k1") 0
        = .error (.valueError "No API key found for ACME with config name k1") ∧
      PyError.keyError "k1"
        ≠ PyError.valueError "No API key found for ACME with config name k1" := by
  decide

/-- C3 (amended) — resolution by an explicit key name absent from the secret
table fails with the descriptive error naming the requested key (the
`CredentialNotFoundError` of the taxonomy, a `ValueError` in the source);
resolution by provider+index first resolves the `config_name`
key-reference attribute of the provider via the Configuration Store and then performs the
direct lookup, but an absent referenced key there fails with a bare
`KeyError` naming only the key — not the same descriptive error shape as the
explicit-name path. -/
theorem get_secret_api_key_paths (pf : ProvidersFile) (secrets : SecretsConfig)
    (provider nm ref : String) (i : Nat)
    (ha : secretLookup secrets nm = none)
    (hb : get_provider_config_attribute pf provider "config_name" i = .ok ref)
    (hc : secretLookup secrets ref = none) :
    get_secret_api_key pf secrets provider (some nm) i
        = .error (.valueError ("No API key found for " ++ provider
            ++ " with config name " ++ nm)) ∧
      get_secret_api_key pf secrets provider none i
        = .error (.keyError ref) := by
  constructor
  · unfold get_secret_api_key get_api_key_from_config_name
    dsimp only
    rw [ha]
  · unfold get_secret_api_key get_api_key_from_config_index
    dsimp only
    rw [hb]
    dsimp only
    rw [hc]

/-- Witness for `get_secret_api_key_paths` at the catalog `pfACME` with an
empty secret table. -/
theorem get_secret_api_key_paths_witness :
    get_secret_api_key pfACME emptySecrets "ACME" (some "nope") 0
        = .error (.valueError ("No API key found for " ++ "ACME"
            ++ " with config name " ++ "nope")) ∧
      get_secret_api_key pfACME emptySecrets "ACME" none 0
        = .error (.keyError "k1") :=
  get_secret_api_key_paths pfACME emptySecrets "ACME" "nope" "k1" 0
    (by decide) (by decide) (by decide)

/-- C5 counterexample — on a session whose configured init message is blank,
`clear_chat_history` seeds the history with the generic fallback as a
*user*-role message, not a system message as the claim states. -/
theorem clear_chat_history_fallback_role_cex :
    Except.map ChatClient.chat_history (clear_chat_history blankInitClient)
        = .ok [{ role := "user",
                 content := some "You are a helpful AI assistant.",
                 name := none }] ∧
      ("user" : String) ≠ "system" := by
  decide

/-- C5 (amended) — after `clear_chat_history` the history contains exactly
one message; its content equals the configured init message when that is
non-empty and otherwise the generic fallback seed
`You are a helpful AI assistant.`; in both cases the seed is created with
role `user` (the fallback is not a system message). -/
theorem clear_chat_history_seed (c : ChatClient) (t : String)
    (h : dictGet c.connection_params "init_config_msg" = some (PValue.s t)) :
    clear_chat_history c
      = .ok { c with chat_history :=
          [{ role := "user",
             content := some (if t = "" then "You are a helpful AI assistant."
               else t),
             name := none }] } := by
  unfold clear_chat_history
  rw [h]
  by_cases ht : t = ""
  · subst ht
    rfl
  · rw [if_neg ht]
    dsimp only
    rw [if_pos ?_]
    · rfl
    · simpa [pvTruthy] using ht

/-- Witness for `clear_chat_history_seed` at a session configured with the
non-empty init message `hi`. -/
theorem clear_chat_history_seed_witness :
    clear_chat_history demoClient
      = .ok { demoClient with chat_history :=
          [{ role := "user",
             content := some (if "hi" = "" then "You are a helpful AI assistant."
               else "hi"),
             name := none }] } :=
  clear_chat_history_seed demoClient "hi" (by decide)

/-- A Python slice `s[:n]` has at most `n` characters. -/
theorem pySlice_length_le (s : String) (n : Nat) : (pySlice s n).length ≤ n := by
  show (s.toList.take n).length ≤ n
  rw [List.length_take]
  omega

/-- For a body longer than 500 characters the 500-character slice is a strict
truncation: it is not the full body. -/
theorem pySlice_ne_of_longer (s : String) (h : 500 < s.length) :
    pySlice s 500 ≠ s := by
  intro heq
  have h2 : (pySlice s 500).length = s.length := congrArg String.length heq
  have h3 : (pySlice s 500).length = (s.toList.take 500).length := rfl
  have h4 : (s.toList.take 500).length = min 500 s.toList.length := by
    rw [List.length_take]
  have h5 : s.toList.length = s.length := rfl
  omega

/-- C6 (confirmed) — for every HTTP 200 response whose body fails JSON
parsing or fails validation against the normalized response schema, the REST
transport raises `ResponseConversionError` whose message embeds the slice
`text[:500]` of the raw body: a snippet of at most 500 characters, and a
strict truncation (never the full body) whenever the body is longer than 500
characters.  (Both failure modes reach the `except ValueError` clause, since
the pydantic `ValidationError` subclasses `ValueError`.) -/
theorem convert_response_200_snippet (r : RestResponse)
    (h200 : r.status_code = 200)
    (hfail : r.json = none ∨ ∃ j e, r.json = some j ∧
      vChatCompletionResponse j = .error e) :
    ∃ pre, convert_response r
        = .error (.responseConversionError (pre ++ pySlice r.text 500)) ∧
      (pySlice r.text 500).length ≤ 500 ∧
      (500 < r.text.length → pySlice r.text 500 ≠ r.text) := by
  rcases hfail with hj | ⟨j, e, hj, hv⟩
  · refine ⟨"Failed to parse JSON response: " ++ jsonDecodeErrMsg
      ++ ". Response text: ", ?_, pySlice_length_le r.text 500,
      fun hl => pySlice_ne_of_longer r.text hl⟩
    unfold convert_response
    rw [h200, if_pos rfl, hj]
  · refine ⟨"Failed to parse JSON response: " ++ e
      ++ ". Response text: ", ?_, pySlice_length_le r.text 500,
      fun hl => pySlice_ne_of_longer r.text hl⟩
    unfold convert_response
    rw [h200, if_pos rfl, hj]
    dsimp only
    rw [hv]

/-- Witness for `convert_response_200_snippet` at an HTTP 200 response with
a non-JSON body. -/
theorem convert_response_200_snippet_witness :
    ∃ pre, convert_response r200bad
        = .error (.responseConversionError (pre ++ pySlice r200bad.text 500)) ∧
      (pySlice r200bad.text 500).length ≤ 500 ∧
      (500 < r200bad.text.length → pySlice r200bad.text 500 ≠ r200bad.text) :=
  convert_response_200_snippet r200bad rfl (Or.inl rfl)

/-- C8 counterexample — an HTTP 500 response whose body parses to the JSON
array `[]` does not raise `ApiClientError` at all: the unguarded
`error_details.get(...)` attribute access raises `AttributeError`, which is
not part of the `APIClientError` taxonomy. -/
theorem convert_response_non200_attributeerror_cex :
    convert_response r500arr
        = .error (.attributeError
            "\x27list\x27 object has no attribute \x27get\x27") ∧
      is_api_client_error
          (.attributeError "\x27list\x27 object has no attribute \x27get\x27")
        = false := by
  decide

/-- C8 (amended) — for every non-200 HTTP response whose body is not JSON,
the REST transport raises `ApiClientError` embedding the status code and the
truncated raw-text snippet `text[:500]`; when the body parses to a JSON
object carrying an `error` object with a `message` entry, it raises
`ApiClientError` embedding the status code and that message (so HTTP 500
with body `{"error": {"message": "boom"}}` yields a message containing both
`500` and `boom`).  A body parsing to non-object JSON instead escapes with
`AttributeError`. -/
theorem convert_response_non200 (r : RestResponse) (hs : r.status_code ≠ 200) :
    (r.json = none → convert_response r
        = .error (.apiClientError ("API request failed with status "
            ++ toString r.status_code ++ ": " ++ pySlice r.text 500))) ∧
      (∀ d e v, r.json = some (Json.obj d) →
        jGet d "error" = some (Json.obj e) → jGet e "message" = some v →
        convert_response r
          = .error (.apiClientError ("API request failed with status "
              ++ toString r.status_code ++ ": " ++ pyStr v))) := by
  constructor
  · intro hj
    unfold convert_response
    rw [if_neg hs, hj]
  · intro d e v hj he hv
    unfold convert_response
    rw [if_neg hs, hj]
    dsimp only
    unfold extract_error_message
    dsimp only
    rw [he]
    dsimp only
    rw [hv]

/-- Witness for `convert_response_non200` at HTTP 500 with body
`{"error": {"message": "boom"}}`: the raised message contains both `500` and
`boom`. -/
theorem convert_response_non200_witness :
    convert_response r500boom
        = .error (.apiClientError ("API request failed with status "
            ++ toString (500 : Nat) ++ ": " ++ pyStr (Json.str "boom"))) ∧
      strContains ("API request failed with status " ++ toString (500 : Nat)
          ++ ": " ++ pyStr (Json.str "boom")) "500" = true ∧
      strContains ("API request failed with status " ++ toString (500 : Nat)
          ++ ": " ++ pyStr (Json.str "boom")) "boom" = true := by
  refine ⟨?_, by decide, by decide⟩
  exact (convert_response_non200 r500boom (by decide)).2
    [("error", Json.obj [("message", Json.str "boom")])]
    [("message", Json.str "boom")] (Json.str "boom") rfl rfl rfl

/-- C4 counterexample — with a freshly configured manager, the first
auto-generated session id is `session_0`; after `close_all_clients` the next
auto-generated id is again `session_0`, not the `session_1` required by the
claimed "count of sessions created so far (including across
closeAllSessions)": the counter is the length of the currently tracked client list,
which `close_all_clients` resets. -/
theorem create_chatclient_counter_reset_cex :
    Except.map ChatClient.session_id (create_chatclient demoManager none).2
        = .ok "session_0" ∧
      Except.map ChatClient.session_id
        (create_chatclient
          (close_all_clients (create_chatclient demoManager none).1) none).2
        = .ok "session_0" ∧
      ("session_0" : String) ≠ "session_1" := by
  decide

/-- C4 (amended) — for every configured manager, a `create_chatclient` call
without a session id names the created client `session_<n>` where `n` is the
number of clients currently tracked by the manager (the count of sessions
created since the last `close_all_clients`, which clears the tracking list
and thereby resets the counter); a call supplying an explicitly blank
(empty or whitespace-only) session id fails with `InvalidParameterError`. -/
theorem create_chatclient_session_ids (m : APIConnectionManager)
    (h : validate_configuration m = true) :
    (∀ c, (create_chatclient m none).2 = .ok c →
      c.session_id = "session_" ++ toString m.active_clients.length) ∧
      (∀ s, pyStrip s = "" → (create_chatclient m (some s)).2
        = .error (.invalidParameterError "Session ID cannot be empty")) := by
  have h0 : ¬(validate_configuration m = false) := by simp [h]
  constructor
  · intro c hc
    unfold create_chatclient at hc
    rw [if_neg h0] at hc
    dsimp only at hc
    split at hc
    · exact absurd hc (by simp)
    · next c2 heq =>
        injection hc with hc
        subst hc
        exact chatclient_init_session_id _ _ _ _ heq
  · intro s hs
    unfold create_chatclient
    rw [if_neg h0]
    dsimp only
    rw [if_pos hs]

/-- Witness for `create_chatclient_session_ids`: a blank session id is
rejected on the configured `demoManager`. -/
theorem create_chatclient_session_ids_witness :
    (create_chatclient demoManager (some " ")).2
      = .error (.invalidParameterError "Session ID cannot be empty") :=
  (create_chatclient_session_ids demoManager (by decide)).2 " " (by decide)

/-- C1 counterexample — on a fresh manager, `configure_api` over a catalog
whose secret table lacks the referenced key raises (the wrapped `KeyError`),
yet the manager is left holding the six freshly stored connection parameters
with no secret key at all — exactly the mixed "new connection params with an
absent secret" state the claim rules out. -/
theorem configure_api_partial_state_cex :
    (configure_api pfACME emptySecrets freshManager "ACME" 0 "openai").2
        = some (.apiClientError
            "Failed to configure API for provider \x27ACME\x27: \x27k1\x27") ∧
      dictGet (configure_api pfACME emptySecrets freshManager "ACME" 0
          "openai").1.connection_params "provider" = some (PValue.s "ACME") ∧
      dictGet (configure_api pfACME emptySecrets freshManager "ACME" 0
          "openai").1.connection_params "model_name" = some (PValue.s "m1") ∧
      (configure_api pfACME emptySecrets freshManager "ACME" 0
          "openai").1.secret_api_key = none := by
  decide

/-- C1 (amended) — when `configure_api` returns normally,
`validate_configuration()` immediately afterwards returns `true` with all six
required fields stored and a non-blank secret resolved.  When the call
raises, the tracked-client list is untouched, but the stores are not atomic:
the manager either keeps its previous secret (while the new connection
params may already have been stored, as the counterexample shows) or — when
the failure is the blank-key check — holds a freshly stored blank secret. -/
theorem configure_api_success_validates (pf : ProvidersFile)
    (secrets : SecretsConfig) (m : APIConnectionManager)
    (provider api_type : String) (config_index : Int) :
    ((configure_api pf secrets m provider config_index api_type).2 = none →
      validate_configuration
          (configure_api pf secrets m provider config_index api_type).1
        = true ∧
      ∃ k, (configure_api pf secrets m provider config_index
          api_type).1.secret_api_key = some k ∧ pyStrip k ≠ "") ∧
      ((configure_api pf secrets m provider config_index api_type).2 ≠ none →
        (configure_api pf secrets m provider config_index
            api_type).1.active_clients = m.active_clients ∧
        ((configure_api pf secrets m provider config_index
            api_type).1.secret_api_key = m.secret_api_key ∨
          ∃ k, (configure_api pf secrets m provider config_index
            api_type).1.secret_api_key = some k ∧ pyStrip k = "")) := by
  unfold configure_api
  repeat' split
  all_goals constructor
  all_goals intro hh
  all_goals first
    | exact Option.noConfusion hh
    | exact absurd rfl hh
    | (refine ⟨rfl, Or.inr ?_⟩
       rename_i hkey
       rcases hkey with hk | hk
       · exact ⟨_, rfl, by rw [hk]; exact pyStrip_empty⟩
       · exact ⟨_, rfl, hk⟩)
    | exact ⟨rfl, Or.inl rfl⟩
    | (rename_i hkey
       exact ⟨rfl, _, rfl, fun hb => hkey (Or.inr hb)⟩)

/-- Witness for `configure_api_success_validates`: a successful configuration
run on the concrete catalog leaves a validated manager with a non-blank
secret. -/
theorem configure_api_success_validates_witness :
    validate_configuration
        (configure_api pfACME goodSecrets freshManager "ACME" 0 "openai").1
      = true ∧
    ∃ k, (configure_api pfACME goodSecrets freshManager "ACME" 0
        "openai").1.secret_api_key = some k ∧ pyStrip k ≠ "" :=
  (configure_api_success_validates pfACME goodSecrets freshManager "ACME"
    "openai" 0).1 (by decide)
